import Mathlib

/-!
Verification development for the Kimera-VIO front-end lifecycle controller
(`VisionFrontEnd.h`): a shallow embedding of the `VIO::VisionFrontEnd` base
class — its constructor, the bootstrap/nominal dispatch in `spinOnce`, the
outlier-rejection dispatch policy `outlierRejectionMono`, the IMU-bias helper
`updateAndResetImuBias`, and the accessors `isInitialized` / `getTrackerInfo`
— together with theorems settling the specification claims about it.

External collaborator types (gtsam rotations/poses, the Tracker and its two
RANSAC kernels, the IMU frontend) are modelled at their interface boundary:
rotations as exact 3x3 rational matrices, the kernels as opaque function
fields of the Tracker record, IMU-collaborator calls as an explicit trace.
-/

/-- Model of `gtsam::Rot3`: a 3x3 matrix with exact rational entries
(the floating-point tolerance of `gtsam::Rot3::equals` is modelled as exact
equality on the rational entries). -/
structure Rot3 where
  r00 : ℚ
  r01 : ℚ
  r02 : ℚ
  r10 : ℚ
  r11 : ℚ
  r12 : ℚ
  r20 : ℚ
  r21 : ℚ
  r22 : ℚ
deriving DecidableEq

/-- Embedding of `gtsam::Rot3::identity()`. -/
def Rot3.identity : Rot3 := ⟨1, 0, 0, 0, 1, 0, 0, 0, 1⟩

/-- Embedding of `gtsam::Rot3::equals` (tolerance comparison modelled as exact equality). -/
def Rot3.equals (a b : Rot3) : Bool := decide (a = b)

/-- Model of `gtsam::Pose3`: rotation plus rational translation. -/
structure Pose3 where
  rot : Rot3
  tx : ℚ
  ty : ℚ
  tz : ℚ
deriving DecidableEq

/-- Default-constructed `gtsam::Pose3()`: identity rotation, zero translation. -/
def Pose3.identityPose : Pose3 := ⟨Rot3.identity, 0, 0, 0⟩

/-- Embedding of `VIO::TrackingStatus` (collaborator enum; `VALID` vs the non-valid
outcomes is all the controller inspects). -/
inductive TrackingStatus where
  | VALID
  | LOW_DISPARITY
  | FEW_MATCHES
  | INVALID
  | DISABLED
deriving DecidableEq

/-- Embedding of `VIO::TrackingStatusPose = std::pair<TrackingStatus, gtsam::Pose3>`. -/
def TrackingStatusPose : Type := TrackingStatus × Pose3

instance : DecidableEq TrackingStatusPose :=
  inferInstanceAs (DecidableEq (TrackingStatus × Pose3))

/-- Model of `VIO::Frame` (opaque to the controller; identified by id). -/
structure Frame where
  id : Nat
deriving DecidableEq

/-- Model of `VIO::StereoCamera` (opaque optional argument to the
rotation-constrained kernel). -/
structure StereoCamera where
  id : Nat
deriving DecidableEq

/-- Embedding of `VIO::DebugTrackerInfo` (read-only diagnostic snapshot, opaque). -/
structure DebugTrackerInfo where
  nr_detected_features_ : Nat
deriving DecidableEq

/-- The slice of `VIO::TrackerParams` the controller reads: the flag
selecting the rotation-constrained 2-point mono RANSAC. -/
structure TrackerParams where
  ransac_use_2point_mono_ : Bool
deriving DecidableEq

/-- Model of the Tracker collaborator: its configuration, its two geometric
outlier-rejection kernels (opaque functions supplied by the collaborator),
and its diagnostic snapshot. -/
structure Tracker where
  tracker_params_ : TrackerParams
  geometricOutlierRejectionMonoGivenRotation :
    Frame → Frame → Rot3 → Option StereoCamera → TrackingStatusPose
  geometricOutlierRejectionMono : Frame → Frame → TrackingStatusPose
  debug_info_ : DebugTrackerInfo

/-- The mono fields of `VIO::TrackerStatusSummary` that
`outlierRejectionMono` writes (lines 170-177 of the header). -/
structure TrackerStatusSummary where
  kfTrackingStatus_mono_ : TrackingStatus
  lkf_T_k_mono_ : Pose3
deriving DecidableEq

/-- Model of `gtsam::imuBias::ConstantBias`: accelerometer and gyroscope
bias triples. -/
structure ImuBias where
  acc : ℚ × ℚ × ℚ
  gyr : ℚ × ℚ × ℚ
deriving DecidableEq

/-- Model of `VIO::ImuParams` (opaque configuration record). -/
structure ImuParams where
  rate : ℚ
deriving DecidableEq

/-- Trace event: one call made to the ImuFrontEnd collaborator. -/
inductive ImuCall where
  | updateBias : ImuBias → ImuCall
  | resetIntegrationWithCachedBias : ImuCall
deriving DecidableEq

/-- Model of the `VIO::ImuFrontEnd` collaborator at its interface boundary:
its parameters and the most recently supplied bias. -/
structure ImuFrontEnd where
  imu_params_ : ImuParams
  latest_imu_bias_ : ImuBias
deriving DecidableEq

/-- Embedding of `ImuFrontEnd::updateBias`: records the new bias; the trace event notes
the collaborator call. -/
def ImuFrontEnd.updateBias (imu : ImuFrontEnd) (imu_bias : ImuBias) :
    ImuFrontEnd × ImuCall :=
  ({ imu with latest_imu_bias_ := imu_bias }, ImuCall.updateBias imu_bias)

/-- Embedding of `ImuFrontEnd::resetIntegrationWithCachedBias`: resets the preintegration
using the cached bias (the preintegration mathematics is external; only the
collaborator call is observable here). -/
def ImuFrontEnd.resetIntegrationWithCachedBias (imu : ImuFrontEnd) :
    ImuFrontEnd × ImuCall :=
  (imu, ImuCall.resetIntegrationWithCachedBias)

/-- Model of `VIO::DisplayQueue` (borrowed pointer, opaque). -/
structure DisplayQueue where
  id : Nat
deriving DecidableEq

/-- Model of `VIO::FrontendLogger` (optional owned sink, opaque). -/
structure FrontendLogger where
  log_count : Nat
deriving DecidableEq

/-- Underlying value of the scoped enum `FrontendState` (`Bootstrap = 0u`,
`Nominal = 1u`). Modelled as the raw unsigned value so that out-of-range
values, which the `default:` branch of `spinOnce` guards against, are
representable. -/
def FrontendState : Type := Nat

instance : DecidableEq FrontendState := inferInstanceAs (DecidableEq Nat)

/-- Enumerator `FrontendState::Bootstrap = 0u`. -/
def FrontendState.Bootstrap : FrontendState := (0 : Nat)

/-- Enumerator `FrontendState::Nominal = 1u`. -/
def FrontendState.Nominal : FrontendState := (1 : Nat)

/-- Reason carried by a fatal (process-terminating) check. -/
inductive FatalMsg where
  | checkNotNullStatusPoseMono
  | unrecognizedFrontendState
deriving DecidableEq

/-- Outcome of executing a controller operation: a normal result, a fatal
termination (`CHECK` / `LOG(FATAL)`), or undefined behavior from
dereferencing a null pointer. -/
inductive RunResult (α : Type) where
  | ok : α → RunResult α
  | fatal : FatalMsg → RunResult α
  | nullDeref : RunResult α

/-- The state of a `VIO::VisionFrontEnd` object: the fields declared at
lines 180-205 of the header. `imu_frontend_`, `tracker_` and `logger_` are
owning pointers, hence `Option` (null = `none`); `display_queue_` is a
borrowed possibly-null pointer. -/
structure VisionFrontEnd where
  frontend_state_ : FrontendState
  frame_count_ : Int
  keyframe_count_ : Int
  last_keyframe_timestamp_ : Int
  imu_frontend_ : Option ImuFrontEnd
  tracker_ : Option Tracker
  tracker_status_summary_ : TrackerStatusSummary
  display_queue_ : Option DisplayQueue
  logger_ : Option FrontendLogger

/-- The `VisionFrontEnd` constructor (lines 48-63): member-initializer list
sets Bootstrap state, zero counters, zero keyframe timestamp, null tracker;
the body then allocates the ImuFrontEnd from the given parameters and bias,
and the logger when `log_output` is set. The default-constructed
`TrackerStatusSummary` starts with an invalid status and a
default-constructed pose. -/
def VisionFrontEnd.construct (imu_params : ImuParams) (imu_initial_bias : ImuBias)
    (display_queue : Option DisplayQueue) (log_output : Bool) : VisionFrontEnd :=
  { frontend_state_ := FrontendState.Bootstrap
    frame_count_ := 0
    keyframe_count_ := 0
    last_keyframe_timestamp_ := 0
    imu_frontend_ := some { imu_params_ := imu_params, latest_imu_bias_ := imu_initial_bias }
    tracker_ := none
    tracker_status_summary_ :=
      { kfTrackingStatus_mono_ := TrackingStatus.INVALID
        lkf_T_k_mono_ := Pose3.identityPose }
    display_queue_ := display_queue
    logger_ := if log_output then some { log_count := 0 } else none }

/-- Embedding of `VisionFrontEnd::isInitialized` (lines 94-96):
`frontend_state_ != FrontendState::Bootstrap`. -/
def isInitialized (fe : VisionFrontEnd) : Bool :=
  decide (fe.frontend_state_ ≠ FrontendState.Bootstrap)

/-- Embedding of `VisionFrontEnd::getTrackerInfo` (lines 128-130): returns
`tracker_->debug_info_`; dereferences the tracker pointer. -/
def getTrackerInfo (fe : VisionFrontEnd) : RunResult DebugTrackerInfo :=
  match fe.tracker_ with
  | none => RunResult.nullDeref
  | some tracker => RunResult.ok tracker.debug_info_

/-- Embedding of `VisionFrontEnd::updateAndResetImuBias` (lines 108-111): calls
`imu_frontend_->updateBias(imu_bias)` then
`imu_frontend_->resetIntegrationWithCachedBias()`. The returned list is the
trace of collaborator calls in execution order. -/
def updateAndResetImuBias (fe : VisionFrontEnd) (imu_bias : ImuBias) :
    RunResult (VisionFrontEnd × List ImuCall) :=
  match fe.imu_frontend_ with
  | none => RunResult.nullDeref
  | some imu =>
    let step1 := imu.updateBias imu_bias
    let step2 := step1.1.resetIntegrationWithCachedBias
    RunResult.ok ({ fe with imu_frontend_ := some step2.1 }, [step1.2, step2.2])

/-- Embedding of `VisionFrontEnd::updateImuBias` (lines 85-87): forwards to the
collaborator's thread-safe `updateBias`. -/
def updateImuBias (fe : VisionFrontEnd) (imu_bias : ImuBias) :
    RunResult (VisionFrontEnd × List ImuCall) :=
  match fe.imu_frontend_ with
  | none => RunResult.nullDeref
  | some imu =>
    let step1 := imu.updateBias imu_bias
    RunResult.ok ({ fe with imu_frontend_ := some step1.1 }, [step1.2])

/-- Embedding of `VisionFrontEnd::getCurrentImuBias` (lines 101-103): forwards to the
collaborator's thread-safe getter. -/
def getCurrentImuBias (fe : VisionFrontEnd) : RunResult ImuBias :=
  match fe.imu_frontend_ with
  | none => RunResult.nullDeref
  | some imu => RunResult.ok imu.latest_imu_bias_

/-- Which geometric verification kernel a dispatch runs. -/
inductive MonoKernel where
  | givenRotation
  | unconstrained
deriving DecidableEq

/-- The dispatch condition of `outlierRejectionMono` (lines 159-160):
the rotation-constrained 2-point kernel is selected when
`tracker_->tracker_params_.ransac_use_2point_mono_` is set and
`keyframe_R_cur_frame` is not the identity; otherwise the unconstrained
5-point kernel. -/
def monoRansacDispatch (tracker : Tracker) (keyframe_R_cur_frame : Rot3) : MonoKernel :=
  if tracker.tracker_params_.ransac_use_2point_mono_ &&
      !(keyframe_R_cur_frame.equals Rot3.identity) then
    MonoKernel.givenRotation
  else
    MonoKernel.unconstrained

/-- Embedding of `VisionFrontEnd::outlierRejectionMono` (lines 153-178).
`status_pose_mono_is_null` models whether the caller passed a null output
pointer: `CHECK_NOTNULL(status_pose_mono)` is fatal on null (line 158).
The tracker pointer is then dereferenced (line 159): null is undefined
behavior. Exactly one kernel is called per the dispatch condition, the
result is written through the output pointer and returned here, together
with the list of kernel invocations made. Afterwards the summary's mono
status is always overwritten (line 170) and the mono pose only when the
status is `VALID` (lines 175-177). The `VLOG`-gated status print (lines
171-173) is pure logging and has no modelled effect. -/
def outlierRejectionMono (fe : VisionFrontEnd) (keyframe_R_cur_frame : Rot3)
    (frame_lkf frame_k : Frame) (status_pose_mono_is_null : Bool)
    (stereo_camera : Option StereoCamera) :
    RunResult (VisionFrontEnd × TrackingStatusPose × List MonoKernel) :=
  if status_pose_mono_is_null then RunResult.fatal FatalMsg.checkNotNullStatusPoseMono
  else
    match fe.tracker_ with
    | none => RunResult.nullDeref
    | some tracker =>
      let kernel_run : MonoKernel := monoRansacDispatch tracker keyframe_R_cur_frame
      let status_pose_mono : TrackingStatusPose :=
        match kernel_run with
        | MonoKernel.givenRotation =>
            tracker.geometricOutlierRejectionMonoGivenRotation frame_lkf frame_k
              keyframe_R_cur_frame stereo_camera
        | MonoKernel.unconstrained =>
            tracker.geometricOutlierRejectionMono frame_lkf frame_k
      let summary1 : TrackerStatusSummary :=
        { fe.tracker_status_summary_ with kfTrackingStatus_mono_ := status_pose_mono.1 }
      let summary2 : TrackerStatusSummary :=
        if status_pose_mono.1 = TrackingStatus.VALID then
          { summary1 with lkf_T_k_mono_ := status_pose_mono.2 }
        else summary1
      RunResult.ok ({ fe with tracker_status_summary_ := summary2 },
        status_pose_mono, [kernel_run])

/-- Handler table standing for the pure-virtual `bootstrapSpin` /
`nominalSpin` (lines 133-135): a derived class supplies both; each receives
the frontend object (mutable `this`) and the input, and produces the updated
object and the output. -/
structure SpinHandlers (InputT OutputT : Type) where
  bootstrapSpin : VisionFrontEnd → InputT → VisionFrontEnd × OutputT
  nominalSpin : VisionFrontEnd → InputT → VisionFrontEnd × OutputT

/-- Embedding of `VisionFrontEnd::spinOnce` (lines 70-80): switch on `frontend_state_`;
`Bootstrap` delegates to `bootstrapSpin`, `Nominal` to `nominalSpin`, and
any other (out-of-range) value hits `LOG(FATAL)` in the `default:` branch. -/
def spinOnce {InputT OutputT : Type} (h : SpinHandlers InputT OutputT)
    (fe : VisionFrontEnd) (input : InputT) : RunResult (VisionFrontEnd × OutputT) :=
  if fe.frontend_state_ = FrontendState.Bootstrap then
    RunResult.ok (h.bootstrapSpin fe input)
  else if fe.frontend_state_ = FrontendState.Nominal then
    RunResult.ok (h.nominalSpin fe input)
  else
    RunResult.fatal FatalMsg.unrecognizedFrontendState

/-- Modelled from the spec: the input unit delivered by the pipeline harness
("one unit bundling an image/frame payload and its associated inertial
window"). For the lifecycle/counter claims only three abstract aspects of an
input matter: whether the bootstrap handler succeeds on it, whether the
nominal handler promotes the frame to a keyframe, and its timestamp. -/
structure SpecInput where
  succeedsBootstrap : Bool
  promoteKeyframe : Bool
  timestamp : Int
deriving DecidableEq

/-- Modelled from the spec: the output unit — a tracking/pose result or a
"still bootstrapping" sentinel, abstracted to the initialized flag. -/
structure SpecOutput where
  initialized : Bool
deriving DecidableEq

/-- Modelled from the spec: the derived-class bootstrap handler (pure
virtual `bootstrapSpin`, absent from this header). Per the spec it
increments the frame counter for the processed input, and when it succeeds
(first valid keyframe, gravity alignment) it establishes the first keyframe
and transitions the lifecycle state to Nominal; until then it returns the
"not yet initialized" sentinel and the state remains Bootstrap. -/
def specBootstrapSpin (fe : VisionFrontEnd) (input : SpecInput) :
    VisionFrontEnd × SpecOutput :=
  let fe1 := { fe with frame_count_ := fe.frame_count_ + 1 }
  if input.succeedsBootstrap then
    ({ fe1 with
        frontend_state_ := FrontendState.Nominal
        keyframe_count_ := fe1.keyframe_count_ + 1
        last_keyframe_timestamp_ := input.timestamp },
      { initialized := true })
  else
    (fe1, { initialized := false })

/-- Modelled from the spec: the derived-class nominal handler (pure virtual
`nominalSpin`, absent from this header). Per the spec it is the steady-state
per-frame path: it increments the frame counter, optionally promotes the
frame to a keyframe (updating the keyframe counter and timestamp), and never
writes the lifecycle state. -/
def specNominalSpin (fe : VisionFrontEnd) (input : SpecInput) :
    VisionFrontEnd × SpecOutput :=
  let fe1 := { fe with frame_count_ := fe.frame_count_ + 1 }
  if input.promoteKeyframe then
    ({ fe1 with
        keyframe_count_ := fe1.keyframe_count_ + 1
        last_keyframe_timestamp_ := input.timestamp },
      { initialized := true })
  else
    (fe1, { initialized := true })

/-- The spec-modelled handler table plugged into `spinOnce`. -/
def specHandlers : SpinHandlers SpecInput SpecOutput :=
  { bootstrapSpin := specBootstrapSpin, nominalSpin := specNominalSpin }

/-- Run `spinOnce` with the spec-modelled handlers over a list of inputs. -/
def spinMany (fe : VisionFrontEnd) (inputs : List SpecInput) :
    RunResult VisionFrontEnd :=
  match inputs with
  | [] => RunResult.ok fe
  | input :: rest =>
    match spinOnce specHandlers fe input with
    | RunResult.ok (fe1, _) => spinMany fe1 rest
    | RunResult.fatal m => RunResult.fatal m
    | RunResult.nullDeref => RunResult.nullDeref

/-- The lifecycle states observed after each successful `spinOnce` call
(truncated at a fatal outcome, which never occurs from a well-formed
state). -/
def spinStates (fe : VisionFrontEnd) (inputs : List SpecInput) :
    List FrontendState :=
  match inputs with
  | [] => []
  | input :: rest =>
    match spinOnce specHandlers fe input with
    | RunResult.ok (fe1, _) => fe1.frontend_state_ :: spinStates fe1 rest
    | RunResult.fatal _ => []
    | RunResult.nullDeref => []

/-- The frontend object after one `outlierRejectionMono` call with a
non-null output pointer and no stereo camera (unchanged on a non-`ok`
outcome). -/
def runFe (fe : VisionFrontEnd) (keyframe_R_cur_frame : Rot3)
    (frame_lkf frame_k : Frame) : VisionFrontEnd :=
  match outlierRejectionMono fe keyframe_R_cur_frame frame_lkf frame_k false none with
  | RunResult.ok (fe1, _, _) => fe1
  | RunResult.fatal _ => fe
  | RunResult.nullDeref => fe

/-- A sequence of `outlierRejectionMono` calls, each given a rotation prior
and the two frames. -/
def runMonoSeq (fe : VisionFrontEnd) (calls : List (Rot3 × Frame × Frame)) :
    VisionFrontEnd :=
  match calls with
  | [] => fe
  | (r, f1, f2) :: rest => runMonoSeq (runFe fe r f1 f2) rest

/-- The kernel outcome a dispatch produces: the value of whichever kernel
the dispatch condition selects. -/
def monoKernelResult (tracker : Tracker) (keyframe_R_cur_frame : Rot3)
    (frame_lkf frame_k : Frame) (stereo_camera : Option StereoCamera) :
    TrackingStatusPose :=
  match monoRansacDispatch tracker keyframe_R_cur_frame with
  | MonoKernel.givenRotation =>
      tracker.geometricOutlierRejectionMonoGivenRotation frame_lkf frame_k
        keyframe_R_cur_frame stereo_camera
  | MonoKernel.unconstrained =>
      tracker.geometricOutlierRejectionMono frame_lkf frame_k

/-- The summary bookkeeping of lines 170-177: the mono status is always
overwritten; the mono pose only when the status is `VALID`. -/
def monoUpdatedSummary (s : TrackerStatusSummary) (sp : TrackingStatusPose) :
    TrackerStatusSummary :=
  let summary1 := { s with kfTrackingStatus_mono_ := sp.1 }
  if sp.1 = TrackingStatus.VALID then { summary1 with lkf_T_k_mono_ := sp.2 }
  else summary1

/-- The pose of the most recent `VALID` kernel outcome along a call
sequence, starting from `p` when no outcome was `VALID` yet. -/
def lastValidPose (p : Pose3) (tracker : Tracker)
    (calls : List (Rot3 × Frame × Frame)) : Pose3 :=
  match calls with
  | [] => p
  | (r, f1, f2) :: rest =>
    let sp := monoKernelResult tracker r f1 f2 none
    lastValidPose (if sp.1 = TrackingStatus.VALID then sp.2 else p) tracker rest

/-- The frontend object after one `updateAndResetImuBias` call (unchanged
on a non-`ok` outcome). -/
def runBiasFe (fe : VisionFrontEnd) (imu_bias : ImuBias) : VisionFrontEnd :=
  match updateAndResetImuBias fe imu_bias with
  | RunResult.ok (fe1, _) => fe1
  | RunResult.fatal _ => fe
  | RunResult.nullDeref => fe

/-- Well-formed values of the lifecycle enum: the two declared enumerators. -/
def stateValOk (s : FrontendState) : Prop :=
  s = FrontendState.Bootstrap ∨ s = FrontendState.Nominal

/-- A frontend object whose lifecycle state holds a declared enumerator. -/
def stateOk (fe : VisionFrontEnd) : Prop := stateValOk fe.frontend_state_

/-- Sample pose used by the concrete witnesses. -/
def samplePoseA : Pose3 := ⟨Rot3.identity, 1, 2, 3⟩

/-- Second sample pose used by the concrete witnesses. -/
def samplePoseB : Pose3 := ⟨Rot3.identity, 4, 5, 6⟩

/-- A rotation that is not the identity (90 degrees about Z). -/
def sampleRotZ : Rot3 := ⟨0, -1, 0, 1, 0, 0, 0, 0, 1⟩

/-- Sample tracker with the 2-point flag enabled and constant kernels. -/
def sampleTracker : Tracker :=
  { tracker_params_ := { ransac_use_2point_mono_ := true }
    geometricOutlierRejectionMonoGivenRotation := fun _ _ _ _ =>
      (TrackingStatus.VALID, samplePoseA)
    geometricOutlierRejectionMono := fun _ _ =>
      (TrackingStatus.INVALID, samplePoseB)
    debug_info_ := { nr_detected_features_ := 7 } }

/-- Sample IMU parameters. -/
def sampleImuParams : ImuParams := { rate := 100 }

/-- Sample initial IMU bias. -/
def sampleBias : ImuBias := { acc := (1, 0, 0), gyr := (0, 0, 0) }

/-- A second sample IMU bias. -/
def sampleBias2 : ImuBias := { acc := (2, 0, 0), gyr := (0, 1, 0) }

/-- A constructed frontend with a tracker installed (as a derived class
would do). -/
def sampleFrontend : VisionFrontEnd :=
  { VisionFrontEnd.construct sampleImuParams sampleBias none false with
      tracker_ := some sampleTracker }

/-- Handlers used by the `spinOnce` dispatch witness. -/
def sampleHandlers : SpinHandlers Nat Nat :=
  { bootstrapSpin := fun fe n => (fe, n)
    nominalSpin := fun fe n => (fe, n + 1) }

/-- A frontend whose lifecycle enum holds an out-of-range value (the
situation the `default:` branch of `spinOnce` guards against). -/
def badStateFrontend : VisionFrontEnd :=
  { sampleFrontend with frontend_state_ := (5 : Nat) }

/-- Tracker for the status/pose-coupling counterexample: the unconstrained
kernel reports `VALID` with pose `samplePoseA` on frame 1 and `INVALID` on
any other frame. -/
def c3Tracker : Tracker :=
  { tracker_params_ := { ransac_use_2point_mono_ := false }
    geometricOutlierRejectionMonoGivenRotation := fun _ _ _ _ =>
      (TrackingStatus.VALID, samplePoseA)
    geometricOutlierRejectionMono := fun _ f2 =>
      if f2.id = 1 then (TrackingStatus.VALID, samplePoseA)
      else (TrackingStatus.INVALID, samplePoseB)
    debug_info_ := { nr_detected_features_ := 0 } }

/-- Frontend for the status/pose-coupling counterexample. -/
def c3Frontend : VisionFrontEnd :=
  { VisionFrontEnd.construct sampleImuParams sampleBias none false with
      tracker_ := some c3Tracker }

/-- The counterexample run: a `VALID` dispatch (frame 1) followed by an
`INVALID` dispatch (frame 2). -/
def c3AfterTwo : VisionFrontEnd :=
  runFe (runFe c3Frontend Rot3.identity ⟨0⟩ ⟨1⟩) Rot3.identity ⟨0⟩ ⟨2⟩

/-- Unfolding lemma: with a non-null output pointer and an installed
tracker, `outlierRejectionMono` returns the dispatched kernel's result, the
updated summary, and a one-element kernel trace. -/
theorem outlierRejectionMono_eq (fe : VisionFrontEnd) (tracker : Tracker)
    (r : Rot3) (f1 f2 : Frame) (sc : Option StereoCamera)
    (htr : fe.tracker_ = some tracker) :
    outlierRejectionMono fe r f1 f2 false sc =
      RunResult.ok
        ({ fe with tracker_status_summary_ :=
            (monoUpdatedSummary fe.tracker_status_summary_
              (monoKernelResult tracker r f1 f2 sc)) },
          monoKernelResult tracker r f1 f2 sc,
          [monoRansacDispatch tracker r]) := by
  unfold outlierRejectionMono
  rw [htr]
  rfl

/-- C1: every call of `outlierRejectionMono` (with a live tracker and a
non-null output pointer) runs exactly one kernel, namely the one selected by
`monoRansacDispatch`, which is a deterministic function of the configuration
flag and the prior rotation: the rotation-constrained kernel is chosen iff
`ransac_use_2point_mono_` is set and the prior rotation is not the identity;
an identity prior always selects the unconstrained kernel regardless of the
flag. -/
theorem claim1_mono_dispatch (fe : VisionFrontEnd) (tracker : Tracker)
    (r : Rot3) (f1 f2 : Frame) (sc : Option StereoCamera)
    (htr : fe.tracker_ = some tracker) :
    (∃ fe1 sp, outlierRejectionMono fe r f1 f2 false sc =
        RunResult.ok (fe1, sp, [monoRansacDispatch tracker r])) ∧
    (monoRansacDispatch tracker r = MonoKernel.givenRotation ↔
      tracker.tracker_params_.ransac_use_2point_mono_ = true ∧
        r.equals Rot3.identity = false) ∧
    (r.equals Rot3.identity = true →
      monoRansacDispatch tracker r = MonoKernel.unconstrained) := by
  refine ⟨⟨_, _, outlierRejectionMono_eq fe tracker r f1 f2 sc htr⟩, ?_, ?_⟩
  · unfold monoRansacDispatch
    cases hb : tracker.tracker_params_.ransac_use_2point_mono_ <;>
      cases he : r.equals Rot3.identity <;> simp [hb, he]
  · intro hid
    unfold monoRansacDispatch
    simp [hid]

/-- C1 witness: on a concrete frontend with the flag set and a genuine
(non-identity) rotation prior, the dispatch facts hold concretely. -/
theorem claim1_mono_dispatch_witness :
    (∃ fe1 sp, outlierRejectionMono sampleFrontend sampleRotZ ⟨1⟩ ⟨2⟩ false none =
        RunResult.ok (fe1, sp, [monoRansacDispatch sampleTracker sampleRotZ])) ∧
    (monoRansacDispatch sampleTracker sampleRotZ = MonoKernel.givenRotation ↔
      sampleTracker.tracker_params_.ransac_use_2point_mono_ = true ∧
        sampleRotZ.equals Rot3.identity = false) ∧
    (sampleRotZ.equals Rot3.identity = true →
      monoRansacDispatch sampleTracker sampleRotZ = MonoKernel.unconstrained) :=
  claim1_mono_dispatch sampleFrontend sampleTracker sampleRotZ ⟨1⟩ ⟨2⟩ none rfl

/-- C2: every `outlierRejectionMono` call overwrites the summary's mono
status with the status the kernel returned, and overwrites the mono pose
with the returned pose exactly when that status is `VALID`; otherwise the
previously stored pose is retained. -/
theorem claim2_summary_update (fe : VisionFrontEnd) (tracker : Tracker)
    (r : Rot3) (f1 f2 : Frame) (sc : Option StereoCamera)
    (htr : fe.tracker_ = some tracker) :
    ∃ fe1 sp ks, outlierRejectionMono fe r f1 f2 false sc =
        RunResult.ok (fe1, sp, ks) ∧
      fe1.tracker_status_summary_.kfTrackingStatus_mono_ = sp.1 ∧
      fe1.tracker_status_summary_.lkf_T_k_mono_ =
        (if sp.1 = TrackingStatus.VALID then sp.2
         else fe.tracker_status_summary_.lkf_T_k_mono_) := by
  refine ⟨_, _, _, outlierRejectionMono_eq fe tracker r f1 f2 sc htr, ?_, ?_⟩ <;>
    · unfold monoUpdatedSummary
      split <;> simp_all

/-- C2 witness: concrete instance on the sample frontend. -/
theorem claim2_summary_update_witness :
    ∃ fe1 sp ks, outlierRejectionMono sampleFrontend sampleRotZ ⟨1⟩ ⟨2⟩ false none =
        RunResult.ok (fe1, sp, ks) ∧
      fe1.tracker_status_summary_.kfTrackingStatus_mono_ = sp.1 ∧
      fe1.tracker_status_summary_.lkf_T_k_mono_ =
        (if sp.1 = TrackingStatus.VALID then sp.2
         else sampleFrontend.tracker_status_summary_.lkf_T_k_mono_) :=
  claim2_summary_update sampleFrontend sampleTracker sampleRotZ ⟨1⟩ ⟨2⟩ none rfl

/-- C7: passing a null `status_pose_mono` output pointer is caught by
`CHECK_NOTNULL` and is fatal; with a non-null pointer that fatal branch is
unreachable, and (given a live tracker) the call proceeds to run exactly one
kernel. -/
theorem claim7_null_check (fe : VisionFrontEnd) (r : Rot3) (f1 f2 : Frame)
    (sc : Option StereoCamera) :
    outlierRejectionMono fe r f1 f2 true sc =
      RunResult.fatal FatalMsg.checkNotNullStatusPoseMono ∧
    outlierRejectionMono fe r f1 f2 false sc ≠
      RunResult.fatal FatalMsg.checkNotNullStatusPoseMono ∧
    (∀ tracker, fe.tracker_ = some tracker →
      ∃ fe1 sp, outlierRejectionMono fe r f1 f2 false sc =
        RunResult.ok (fe1, sp, [monoRansacDispatch tracker r])) := by
  refine ⟨rfl, ?_, ?_⟩
  · cases htr : fe.tracker_ with
    | none => unfold outlierRejectionMono; rw [htr]; simp
    | some tracker => rw [outlierRejectionMono_eq fe tracker r f1 f2 sc htr]; simp
  · intro tracker htr
    exact ⟨_, _, outlierRejectionMono_eq fe tracker r f1 f2 sc htr⟩

/-- C7 witness: concrete instance on the sample frontend. -/
theorem claim7_null_check_witness :
    outlierRejectionMono sampleFrontend sampleRotZ ⟨1⟩ ⟨2⟩ true none =
      RunResult.fatal FatalMsg.checkNotNullStatusPoseMono ∧
    outlierRejectionMono sampleFrontend sampleRotZ ⟨1⟩ ⟨2⟩ false none ≠
      RunResult.fatal FatalMsg.checkNotNullStatusPoseMono ∧
    (∃ fe1 sp, outlierRejectionMono sampleFrontend sampleRotZ ⟨1⟩ ⟨2⟩ false none =
        RunResult.ok (fe1, sp, [monoRansacDispatch sampleTracker sampleRotZ])) :=
  ⟨(claim7_null_check sampleFrontend sampleRotZ ⟨1⟩ ⟨2⟩ none).1,
    (claim7_null_check sampleFrontend sampleRotZ ⟨1⟩ ⟨2⟩ none).2.1,
    (claim7_null_check sampleFrontend sampleRotZ ⟨1⟩ ⟨2⟩ none).2.2 sampleTracker rfl⟩

/-- C3 counterexample: run a dispatch whose kernel returns `VALID` with pose
`samplePoseA`, then one returning `INVALID`. Afterwards the summary's mono
status is non-VALID while the pose field still holds the previously
estimated pose (distinct from the default-constructed pose), so "the pose
field is populated iff the status equals VALID" fails as stated. -/
theorem claim3_pose_iff_valid_counterexample :
    c3AfterTwo.tracker_status_summary_.kfTrackingStatus_mono_ ≠ TrackingStatus.VALID ∧
    c3AfterTwo.tracker_status_summary_.lkf_T_k_mono_ = samplePoseA ∧
    samplePoseA ≠ Pose3.identityPose := by
  refine ⟨by decide, by decide, by decide⟩

/-- C3 amended: along any sequence of dispatches, the summary's mono pose
field equals the pose of the most recent `VALID` kernel outcome (its prior
value when none occurred yet): a `VALID` outcome freshly overwrites the
pose, and a non-VALID outcome leaves the previous pose value in place — the
stale pose is retained, not cleared. -/
theorem claim3_last_valid_pose (fe : VisionFrontEnd) (tracker : Tracker)
    (calls : List (Rot3 × Frame × Frame)) (htr : fe.tracker_ = some tracker) :
    (runMonoSeq fe calls).tracker_status_summary_.lkf_T_k_mono_ =
      lastValidPose fe.tracker_status_summary_.lkf_T_k_mono_ tracker calls := by
  induction calls generalizing fe with
  | nil => rfl
  | cons c rest ih =>
    obtain ⟨r, f1, f2⟩ := c
    have hrun : runFe fe r f1 f2 =
        { fe with tracker_status_summary_ :=
            (monoUpdatedSummary fe.tracker_status_summary_
              (monoKernelResult tracker r f1 f2 none)) } := by
      unfold runFe
      rw [outlierRejectionMono_eq fe tracker r f1 f2 none htr]
    have step := ih { fe with tracker_status_summary_ :=
        (monoUpdatedSummary fe.tracker_status_summary_
          (monoKernelResult tracker r f1 f2 none)) } htr
    simp only [runMonoSeq, lastValidPose]
    rw [hrun, step]
    congr 1
    unfold monoUpdatedSummary
    split <;> rfl

/-- C3 amended witness: concrete two-call run on the counterexample
frontend. -/
theorem claim3_last_valid_pose_witness :
    (runMonoSeq c3Frontend
        [(Rot3.identity, ⟨0⟩, ⟨1⟩), (Rot3.identity, ⟨0⟩, ⟨2⟩)]
      ).tracker_status_summary_.lkf_T_k_mono_ =
      lastValidPose c3Frontend.tracker_status_summary_.lkf_T_k_mono_ c3Tracker
        [(Rot3.identity, ⟨0⟩, ⟨1⟩), (Rot3.identity, ⟨0⟩, ⟨2⟩)] :=
  claim3_last_valid_pose c3Frontend c3Tracker
    [(Rot3.identity, ⟨0⟩, ⟨1⟩), (Rot3.identity, ⟨0⟩, ⟨2⟩)] rfl

/-- C4: `spinOnce` reads the lifecycle state and dispatches on it —
Bootstrap runs the bootstrap handler, Nominal the nominal handler, and any
other value hits the fatal `default:` branch; when the state is one of the
two declared enumerators the fatal branch is unreachable. -/
theorem claim4_spinOnce_dispatch {InputT OutputT : Type}
    (h : SpinHandlers InputT OutputT) (fe : VisionFrontEnd) (input : InputT) :
    (fe.frontend_state_ = FrontendState.Bootstrap →
      spinOnce h fe input = RunResult.ok (h.bootstrapSpin fe input)) ∧
    (fe.frontend_state_ = FrontendState.Nominal →
      spinOnce h fe input = RunResult.ok (h.nominalSpin fe input)) ∧
    (fe.frontend_state_ ≠ FrontendState.Bootstrap →
      fe.frontend_state_ ≠ FrontendState.Nominal →
      spinOnce h fe input = RunResult.fatal FatalMsg.unrecognizedFrontendState) ∧
    (stateOk fe →
      spinOnce h fe input ≠ RunResult.fatal FatalMsg.unrecognizedFrontendState) := by
  unfold spinOnce
  refine ⟨fun h0 => ?_, fun h1 => ?_, fun h0 h1 => ?_, fun hok => ?_⟩
  · rw [if_pos h0]
  · rw [if_neg ?_, if_pos h1]
    rw [h1]
    unfold FrontendState.Nominal FrontendState.Bootstrap
    decide
  · rw [if_neg h0, if_neg h1]
  · rcases hok with h0 | h1
    · simp [h0]
    · simp [h1, FrontendState.Nominal, FrontendState.Bootstrap]

/-- C4 witness: a freshly constructed frontend dispatches to the bootstrap
handler, and a frontend forced into an out-of-range state value takes the
fatal branch. -/
theorem claim4_spinOnce_dispatch_witness :
    spinOnce sampleHandlers
        (VisionFrontEnd.construct sampleImuParams sampleBias none false) 3 =
      RunResult.ok (sampleHandlers.bootstrapSpin
        (VisionFrontEnd.construct sampleImuParams sampleBias none false) 3) ∧
    spinOnce sampleHandlers badStateFrontend 3 =
      RunResult.fatal FatalMsg.unrecognizedFrontendState :=
  ⟨(claim4_spinOnce_dispatch sampleHandlers
      (VisionFrontEnd.construct sampleImuParams sampleBias none false) 3).1 rfl,
    (claim4_spinOnce_dispatch sampleHandlers badStateFrontend 3).2.2.1
      (by decide) (by decide)⟩

/-- C8: immediately after construction the lifecycle state is Bootstrap,
all counters and the keyframe timestamp are zero, and `isInitialized`
returns false; in general `isInitialized` returns true exactly when the
lifecycle state is no longer Bootstrap (it is a pure read). -/
theorem claim8_construct_init (p : ImuParams) (b : ImuBias)
    (dq : Option DisplayQueue) (lg : Bool) :
    (VisionFrontEnd.construct p b dq lg).frontend_state_ = FrontendState.Bootstrap ∧
    (VisionFrontEnd.construct p b dq lg).frame_count_ = 0 ∧
    (VisionFrontEnd.construct p b dq lg).keyframe_count_ = 0 ∧
    (VisionFrontEnd.construct p b dq lg).last_keyframe_timestamp_ = 0 ∧
    isInitialized (VisionFrontEnd.construct p b dq lg) = false ∧
    (∀ fe, isInitialized fe = true ↔
      fe.frontend_state_ ≠ FrontendState.Bootstrap) := by
  refine ⟨rfl, rfl, rfl, rfl, rfl, fun fe => ?_⟩
  unfold isInitialized
  simp

/-- C9: `updateAndResetImuBias(b)` performs exactly two collaborator calls
in order — `updateBias(b)` then `resetIntegrationWithCachedBias()` — and
leaves every controller-owned field (lifecycle state, counters, keyframe
timestamp, tracker pointer, tracker status summary) unchanged. The
"estimation thread during bootstrap only" clause is a documented calling
contract, not runtime-enforced behavior. -/
theorem claim9_updateAndResetImuBias (fe : VisionFrontEnd) (imu : ImuFrontEnd)
    (b : ImuBias) (h : fe.imu_frontend_ = some imu) :
    ∃ fe1, updateAndResetImuBias fe b =
        RunResult.ok (fe1,
          [ImuCall.updateBias b, ImuCall.resetIntegrationWithCachedBias]) ∧
      fe1.frontend_state_ = fe.frontend_state_ ∧
      fe1.frame_count_ = fe.frame_count_ ∧
      fe1.keyframe_count_ = fe.keyframe_count_ ∧
      fe1.last_keyframe_timestamp_ = fe.last_keyframe_timestamp_ ∧
      fe1.tracker_status_summary_ = fe.tracker_status_summary_ ∧
      fe1.tracker_ = fe.tracker_ := by
  refine ⟨{ fe with imu_frontend_ :=
      (some { imu with latest_imu_bias_ := b }) }, ?_, rfl, rfl, rfl, rfl, rfl, rfl⟩
  unfold updateAndResetImuBias
  rw [h]
  rfl

/-- C9 witness: concrete instance on the sample frontend. -/
theorem claim9_updateAndResetImuBias_witness :
    ∃ fe1, updateAndResetImuBias sampleFrontend sampleBias2 =
        RunResult.ok (fe1,
          [ImuCall.updateBias sampleBias2, ImuCall.resetIntegrationWithCachedBias]) ∧
      fe1.frontend_state_ = sampleFrontend.frontend_state_ ∧
      fe1.frame_count_ = sampleFrontend.frame_count_ ∧
      fe1.keyframe_count_ = sampleFrontend.keyframe_count_ ∧
      fe1.last_keyframe_timestamp_ = sampleFrontend.last_keyframe_timestamp_ ∧
      fe1.tracker_status_summary_ = sampleFrontend.tracker_status_summary_ ∧
      fe1.tracker_ = sampleFrontend.tracker_ :=
  claim9_updateAndResetImuBias sampleFrontend
    { imu_params_ := sampleImuParams, latest_imu_bias_ := sampleBias }
    sampleBias2 rfl

/-- C10: the base-class constructor leaves `tracker_` null, and no
base-class operation installs one (`outlierRejectionMono` and
`updateAndResetImuBias`, the only base-class mutators, preserve it); hence
`getTrackerInfo` and `outlierRejectionMono` (past its null-output check)
dereference a null pointer on a base object in which no derived class has
installed a tracker. -/
theorem claim10_tracker_null (p : ImuParams) (b : ImuBias)
    (dq : Option DisplayQueue) (lg : Bool) (r : Rot3) (f1 f2 : Frame)
    (sc : Option StereoCamera) :
    (VisionFrontEnd.construct p b dq lg).tracker_ = none ∧
    getTrackerInfo (VisionFrontEnd.construct p b dq lg) = RunResult.nullDeref ∧
    outlierRejectionMono (VisionFrontEnd.construct p b dq lg) r f1 f2 false sc =
      RunResult.nullDeref ∧
    (∀ fe fe1 sp ks, outlierRejectionMono fe r f1 f2 false sc =
        RunResult.ok (fe1, sp, ks) → fe1.tracker_ = fe.tracker_) ∧
    (∀ fe bias fe1 calls, updateAndResetImuBias fe bias =
        RunResult.ok (fe1, calls) → fe1.tracker_ = fe.tracker_) := by
  refine ⟨rfl, rfl, rfl, ?_, ?_⟩
  · intro fe fe1 sp ks heq
    cases htr : fe.tracker_ with
    | none =>
      unfold outlierRejectionMono at heq
      rw [htr] at heq
      simp at heq
    | some tracker =>
      rw [outlierRejectionMono_eq fe tracker r f1 f2 sc htr] at heq
      simp only [RunResult.ok.injEq, Prod.mk.injEq] at heq
      obtain ⟨h1, -, -⟩ := heq
      subst h1
      exact htr
  · intro fe bias fe1 calls heq
    cases him : fe.imu_frontend_ with
    | none =>
      unfold updateAndResetImuBias at heq
      rw [him] at heq
      simp at heq
    | some imu =>
      unfold updateAndResetImuBias at heq
      rw [him] at heq
      simp only [RunResult.ok.injEq, Prod.mk.injEq] at heq
      obtain ⟨h1, -⟩ := heq
      subst h1
      rfl

/-- C10 witness: the preservation clauses applied to the concrete sample
frontend (whose tracker and IMU frontend are installed). -/
theorem claim10_tracker_null_witness :
    (runFe sampleFrontend sampleRotZ ⟨1⟩ ⟨2⟩).tracker_ = sampleFrontend.tracker_ ∧
    (runBiasFe sampleFrontend sampleBias2).tracker_ = sampleFrontend.tracker_ := by
  constructor
  · have h := (claim10_tracker_null sampleImuParams sampleBias none false
        sampleRotZ ⟨1⟩ ⟨2⟩ none).2.2.2.1 sampleFrontend _ _ _
      (outlierRejectionMono_eq sampleFrontend sampleTracker sampleRotZ ⟨1⟩ ⟨2⟩ none rfl)
    exact h
  · have heq : updateAndResetImuBias sampleFrontend sampleBias2 =
        RunResult.ok ({ sampleFrontend with imu_frontend_ :=
            (some { imu_params_ := sampleImuParams, latest_imu_bias_ := sampleBias2 }) },
          [ImuCall.updateBias sampleBias2, ImuCall.resetIntegrationWithCachedBias]) := rfl
    have h := (claim10_tracker_null sampleImuParams sampleBias none false
        sampleRotZ ⟨1⟩ ⟨2⟩ none).2.2.2.2 sampleFrontend sampleBias2 _ _ heq
    exact h

/-- With the spec-modelled handlers, a `spinOnce` step from a well-formed
state succeeds, preserves well-formedness, keeps Nominal absorbing,
increments the frame counter by exactly one, and increments the keyframe
counter by at most one. -/
theorem specStep_ok (fe : VisionFrontEnd) (input : SpecInput) (hok : stateOk fe) :
    ∃ fe1 out, spinOnce specHandlers fe input = RunResult.ok (fe1, out) ∧
      stateOk fe1 ∧
      (fe.frontend_state_ = FrontendState.Nominal →
        fe1.frontend_state_ = FrontendState.Nominal) ∧
      fe1.frame_count_ = fe.frame_count_ + 1 ∧
      (fe1.keyframe_count_ = fe.keyframe_count_ ∨
        fe1.keyframe_count_ = fe.keyframe_count_ + 1) := by
  rcases hok with h0 | h1
  · have hspin : spinOnce specHandlers fe input =
        RunResult.ok (specBootstrapSpin fe input) := by
      unfold spinOnce
      rw [if_pos h0]
      rfl
    cases hsb : input.succeedsBootstrap with
    | true =>
      have hb : specBootstrapSpin fe input =
          ({ fe with
              frontend_state_ := FrontendState.Nominal
              frame_count_ := fe.frame_count_ + 1
              keyframe_count_ := fe.keyframe_count_ + 1
              last_keyframe_timestamp_ := input.timestamp },
            { initialized := true }) := by
        unfold specBootstrapSpin
        rw [hsb]
        rfl
      refine ⟨{ fe with
          frontend_state_ := FrontendState.Nominal
          frame_count_ := fe.frame_count_ + 1
          keyframe_count_ := fe.keyframe_count_ + 1
          last_keyframe_timestamp_ := input.timestamp },
        { initialized := true }, ?_, Or.inr rfl, fun _ => rfl, rfl, Or.inr rfl⟩
      rw [hspin, hb]
    | false =>
      have hb : specBootstrapSpin fe input =
          ({ fe with frame_count_ := fe.frame_count_ + 1 },
            { initialized := false }) := by
        unfold specBootstrapSpin
        rw [hsb]
        rfl
      refine ⟨{ fe with frame_count_ := fe.frame_count_ + 1 },
        { initialized := false }, ?_, Or.inl h0, fun hn => ?_, rfl, Or.inl rfl⟩
      · rw [hspin, hb]
      · rw [h0] at hn
        exact absurd hn (by decide)
  · have hspin : spinOnce specHandlers fe input =
        RunResult.ok (specNominalSpin fe input) := by
      have hne : fe.frontend_state_ ≠ FrontendState.Bootstrap := by
        rw [h1]
        decide
      unfold spinOnce
      rw [if_neg hne, if_pos h1]
      rfl
    cases hpk : input.promoteKeyframe with
    | true =>
      have hb : specNominalSpin fe input =
          ({ fe with
              frame_count_ := fe.frame_count_ + 1
              keyframe_count_ := fe.keyframe_count_ + 1
              last_keyframe_timestamp_ := input.timestamp },
            { initialized := true }) := by
        unfold specNominalSpin
        rw [hpk]
        rfl
      refine ⟨{ fe with
          frame_count_ := fe.frame_count_ + 1
          keyframe_count_ := fe.keyframe_count_ + 1
          last_keyframe_timestamp_ := input.timestamp },
        { initialized := true }, ?_, Or.inr h1, fun _ => h1, rfl, Or.inr rfl⟩
      rw [hspin, hb]
    | false =>
      have hb : specNominalSpin fe input =
          ({ fe with frame_count_ := fe.frame_count_ + 1 },
            { initialized := true }) := by
        unfold specNominalSpin
        rw [hpk]
        rfl
      refine ⟨{ fe with frame_count_ := fe.frame_count_ + 1 },
        { initialized := true }, ?_, Or.inr h1, fun _ => h1, rfl, Or.inl rfl⟩
      rw [hspin, hb]

/-- Run invariant for the spec-modelled controller: from a well-formed
state every run succeeds, the observed state sequence is Nominal-absorbing,
every visited state is a declared enumerator, and the counters advance by
the number of processed inputs (keyframes by at most that). -/
theorem spinRun_invariant (inputs : List SpecInput) (fe : VisionFrontEnd)
    (hok : stateOk fe) :
    (∃ fe1, spinMany fe inputs = RunResult.ok fe1 ∧ stateOk fe1 ∧
      fe1.frame_count_ = fe.frame_count_ + inputs.length ∧
      fe.keyframe_count_ ≤ fe1.keyframe_count_ ∧
      fe1.keyframe_count_ ≤ fe.keyframe_count_ + inputs.length) ∧
    List.Chain' (fun s1 s2 => s1 = FrontendState.Nominal →
      s2 = FrontendState.Nominal) (fe.frontend_state_ :: spinStates fe inputs) ∧
    (∀ s ∈ spinStates fe inputs, stateValOk s) := by
  induction inputs generalizing fe with
  | nil =>
    refine ⟨⟨fe, rfl, hok, by simp, le_refl _, by simp⟩, ?_, ?_⟩
    · simp [spinStates]
    · simp [spinStates]
  | cons input rest ih =>
    obtain ⟨fe1, out, hspin, hok1, habs, hfc, hkc⟩ := specStep_ok fe input hok
    obtain ⟨⟨fe2, hmany, hok2, hfc2, hkc2l, hkc2r⟩, hchain, hmem⟩ := ih fe1 hok1
    refine ⟨⟨fe2, ?_, hok2, ?_, ?_, ?_⟩, ?_, ?_⟩
    · simp only [spinMany]
      rw [hspin]
      exact hmany
    · simp only [List.length_cons]
      push_cast
      omega
    · rcases hkc with h | h <;> omega
    · rcases hkc with h | h <;>
        · simp only [List.length_cons]
          push_cast
          omega
    · simp only [spinStates]
      rw [hspin]
      exact List.chain'_cons.mpr ⟨habs, hchain⟩
    · simp only [spinStates]
      rw [hspin]
      show ∀ s ∈ fe1.frontend_state_ :: spinStates fe1 rest, stateValOk s
      intro s hs
      rcases List.mem_cons.mp hs with rfl | hs1
      · exact hok1
      · exact hmem s hs1

/-- C5 (handlers modelled from the spec): the lifecycle state starts at
Bootstrap; along any run the observed state sequence is Nominal-absorbing,
so the state changes at most once and only from Bootstrap to Nominal, and
never returns to Bootstrap; every visited state is a declared enumerator;
the Bootstrap→Nominal transition happens exactly when the bootstrap handler
succeeds; the nominal handler never writes the state; and neither
base-class mutator (`outlierRejectionMono`, `updateAndResetImuBias`) writes
it. -/
theorem claim5_state_monotone (p : ImuParams) (b : ImuBias)
    (dq : Option DisplayQueue) (lg : Bool) (inputs : List SpecInput) :
    (VisionFrontEnd.construct p b dq lg).frontend_state_ =
      FrontendState.Bootstrap ∧
    List.Chain' (fun s1 s2 => s1 = FrontendState.Nominal →
        s2 = FrontendState.Nominal)
      ((VisionFrontEnd.construct p b dq lg).frontend_state_ ::
        spinStates (VisionFrontEnd.construct p b dq lg) inputs) ∧
    (∀ s ∈ spinStates (VisionFrontEnd.construct p b dq lg) inputs,
      stateValOk s) ∧
    (∀ fe input, fe.frontend_state_ = FrontendState.Bootstrap →
      ((specBootstrapSpin fe input).1.frontend_state_ = FrontendState.Nominal ↔
        input.succeedsBootstrap = true)) ∧
    (∀ fe input, (specNominalSpin fe input).1.frontend_state_ =
      fe.frontend_state_) ∧
    (∀ fe r f1 f2 np sc fe1 sp ks, outlierRejectionMono fe r f1 f2 np sc =
        RunResult.ok (fe1, sp, ks) →
      fe1.frontend_state_ = fe.frontend_state_) ∧
    (∀ fe bias fe1 calls, updateAndResetImuBias fe bias =
        RunResult.ok (fe1, calls) →
      fe1.frontend_state_ = fe.frontend_state_) := by
  obtain ⟨-, hchain, hmem⟩ :=
    spinRun_invariant inputs (VisionFrontEnd.construct p b dq lg) (Or.inl rfl)
  refine ⟨rfl, hchain, hmem, ?_, ?_, ?_, ?_⟩
  · intro fe input h0
    cases hsb : input.succeedsBootstrap with
    | true =>
      unfold specBootstrapSpin
      rw [hsb]
      simp
    | false =>
      unfold specBootstrapSpin
      rw [hsb]
      simp only [Bool.false_eq_true, if_false, h0, iff_false]
      decide
  · intro fe input
    cases hpk : input.promoteKeyframe with
    | true =>
      unfold specNominalSpin
      rw [hpk]
      rfl
    | false =>
      unfold specNominalSpin
      rw [hpk]
      rfl
  · intro fe r f1 f2 np sc fe1 sp ks heq
    cases np with
    | true =>
      unfold outlierRejectionMono at heq
      simp at heq
    | false =>
      cases htr : fe.tracker_ with
      | none =>
        unfold outlierRejectionMono at heq
        rw [htr] at heq
        simp at heq
      | some tracker =>
        rw [outlierRejectionMono_eq fe tracker r f1 f2 sc htr] at heq
        simp only [RunResult.ok.injEq, Prod.mk.injEq] at heq
        obtain ⟨hh, -, -⟩ := heq
        subst hh
        rfl
  · intro fe bias fe1 calls heq
    cases him : fe.imu_frontend_ with
    | none =>
      unfold updateAndResetImuBias at heq
      rw [him] at heq
      simp at heq
    | some imu =>
      unfold updateAndResetImuBias at heq
      rw [him] at heq
      simp only [RunResult.ok.injEq, Prod.mk.injEq] at heq
      obtain ⟨hh, -⟩ := heq
      subst hh
      rfl

/-- C5 witness: concrete instances — a constructed frontend starts at
Bootstrap; on an input whose bootstrap succeeds the handler transitions to
Nominal; the visited state is a declared enumerator; and the two base-class
mutators preserve the state on the sample frontend. -/
theorem claim5_state_monotone_witness :
    (VisionFrontEnd.construct sampleImuParams sampleBias none false
      ).frontend_state_ = FrontendState.Bootstrap ∧
    ((specBootstrapSpin
        (VisionFrontEnd.construct sampleImuParams sampleBias none false)
        { succeedsBootstrap := true, promoteKeyframe := false, timestamp := 7 }
      ).1.frontend_state_ = FrontendState.Nominal ↔
      ({ succeedsBootstrap := true, promoteKeyframe := false,
          timestamp := 7 } : SpecInput).succeedsBootstrap = true) ∧
    stateValOk FrontendState.Nominal ∧
    (runFe sampleFrontend sampleRotZ ⟨1⟩ ⟨2⟩).frontend_state_ =
      sampleFrontend.frontend_state_ ∧
    (runBiasFe sampleFrontend sampleBias2).frontend_state_ =
      sampleFrontend.frontend_state_ := by
  have h := claim5_state_monotone sampleImuParams sampleBias none false
    [{ succeedsBootstrap := true, promoteKeyframe := false, timestamp := 7 }]
  refine ⟨h.1, h.2.2.2.1
      (VisionFrontEnd.construct sampleImuParams sampleBias none false)
      { succeedsBootstrap := true, promoteKeyframe := false, timestamp := 7 }
      rfl,
    h.2.2.1 FrontendState.Nominal (by decide), ?_, ?_⟩
  · exact h.2.2.2.2.2.1 sampleFrontend sampleRotZ ⟨1⟩ ⟨2⟩ false none _ _ _
      (outlierRejectionMono_eq sampleFrontend sampleTracker sampleRotZ ⟨1⟩ ⟨2⟩ none rfl)
  · exact h.2.2.2.2.2.2 sampleFrontend sampleBias2 _ _ rfl

/-- C6 (handlers modelled from the spec): after N `spinOnce` calls on a
freshly constructed frontend the frame counter equals N, and
0 ≤ keyframe_count_ ≤ frame_count_ holds; since this is proved for every
input sequence, it holds at every point of every run (each point is the end
of a prefix). -/
theorem claim6_counters (p : ImuParams) (b : ImuBias) (dq : Option DisplayQueue)
    (lg : Bool) (inputs : List SpecInput) :
    ∃ fe1, spinMany (VisionFrontEnd.construct p b dq lg) inputs =
        RunResult.ok fe1 ∧
      fe1.frame_count_ = (inputs.length : Int) ∧
      0 ≤ fe1.keyframe_count_ ∧ fe1.keyframe_count_ ≤ fe1.frame_count_ := by
  obtain ⟨⟨fe1, hmany, -, hfc, hkl, hkr⟩, -, -⟩ :=
    spinRun_invariant inputs (VisionFrontEnd.construct p b dq lg) (Or.inl rfl)
  have h0 : (VisionFrontEnd.construct p b dq lg).frame_count_ = 0 := rfl
  have h1 : (VisionFrontEnd.construct p b dq lg).keyframe_count_ = 0 := rfl
  exact ⟨fe1, hmany, by omega, by omega, by omega⟩
